import Mathlib

/-!
Shallow embedding of the `managePakets` repository (src/main.py), a NuGet
dependency-listing script, together with proofs of the specification claims.

JSON documents are modelled by the inductive `Json`; Python dictionaries that
come from `json.loads` are association lists `List (String × Json)`.  Python
exceptions are modelled by `Except AppError`; the network is modelled by an
explicit function `net : String → Except String Json` mapping a URL to either
the parsed JSON body or the message of the `NuGetError` that the HTTP layer
(`_make_http_request` / `_get_json_from_url`) raises for it.

Modelling scope: Python `dict.get` is `pyGet` (an `Option`-valued lookup); on a
non-dict receiver Python would raise, a case that never arises in the claims,
and `pyGet` returns `none` there.  `.get(k, [])` followed by list iteration is
`pyGetArr`, which iterates JSON arrays and treats the absent/falsy cases as the
empty iteration, matching Python on every JSON-array-or-missing input.
-/

/-- JSON values as produced by `json.loads`. -/
inductive Json where
  | null : Json
  | bool (b : Bool) : Json
  | num (n : Int) : Json
  | str (s : String) : Json
  | arr (xs : List Json) : Json
  | obj (fields : List (String × Json)) : Json

/-- Python `d.get(k)` on a JSON object: `none` models Python's `None`. -/
def pyGet (j : Json) (k : String) : Option Json :=
  match j with
  | Json.obj fields => fields.lookup k
  | _ => none

/-- Python `d.get(k, [])` for a field expected to hold a JSON array;
absent or non-array values give the empty iteration. -/
def pyGetArr (j : Json) (k : String) : List Json :=
  match pyGet j k with
  | some (Json.arr xs) => xs
  | _ => []

/-- Python truthiness of a JSON value. -/
def jTruthy : Json → Bool
  | Json.null => false
  | Json.bool b => b
  | Json.num n => n != 0
  | Json.str s => !s.isEmpty
  | Json.arr xs => !xs.isEmpty
  | Json.obj fields => !fields.isEmpty

/-- Python `v == s` where `s` is a string: true exactly when the value is
that string (matching Python, where a non-str never equals a str). -/
def jStrEq (v : Option Json) (s : String) : Bool :=
  match v with
  | some (Json.str t) => t == s
  | _ => false

/-- Whether the first character list starts the second one. -/
def strStarts : List Char → List Char → Bool
  | [], _ => true
  | _ :: _, [] => false
  | c :: cs, d :: ds => c == d && strStarts cs ds

/-- Substring containment on character lists. -/
def strContainsAux (needle : List Char) : List Char → Bool
  | [] => strStarts needle []
  | d :: ds => strStarts needle (d :: ds) || strContainsAux needle ds

/-- Python `sub in s` (substring containment). -/
def strContains (s sub : String) : Bool :=
  strContainsAux sub.toList s.toList

/-- Python `str.lower()` (ASCII scope, which covers package names and URLs). -/
def pyToLower (s : String) : String :=
  String.mk (s.toList.map Char.toLower)

/-- Errors of the program: `configError` is `ConfigError` (the spec's
`ConfigurationError`), `nugetError` is `NuGetError` (the spec's
`RegistryError`), `otherError` stands for any other Python exception. -/
inductive AppError where
  | configError (msg : String) : AppError
  | nugetError (msg : String) : AppError
  | otherError (msg : String) : AppError

/-- An extracted dependency record, as built in `_extract_dependencies`
(`{'id': ..., 'version_range': ..., 'target_framework': ...}`). -/
structure Dep where
  id : Json
  version_range : Json
  target_framework : Json

/-- The body of the inner `for dep in group_dependencies` loop of
`_extract_dependencies` (src/main.py lines 257-275): non-dict members are
skipped, the id is `dep.get('id', '')`, the range is `dep.get('range', '')`
falling back to `dep.get('version', '')` when falsy, and the record is kept
only when the id is truthy. -/
def extractDep (tf : Json) (dep : Json) : Option Dep :=
  match dep with
  | Json.obj _ =>
    let depId := (pyGet dep "id").getD (Json.str "")
    let r0 := (pyGet dep "range").getD (Json.str "")
    let depRange := if jTruthy r0 then r0 else (pyGet dep "version").getD (Json.str "")
    if jTruthy depId then some ⟨depId, depRange, tf⟩ else none
  | _ => none

/-- `_extract_dependencies` (src/main.py lines 232-287): walk
`package_data.get('dependencyGroups', [])`; skip non-dict groups; in each
group read `targetFramework` (default `'Unknown'`) and collect the
dependencies of `group.get('dependencies', [])` via `extractDep`.  The
debug-print block at lines 277-286 only prints and is not modelled. -/
def extract_dependencies (package_data : Json) : List Dep :=
  (pyGetArr package_data "dependencyGroups").flatMap fun group =>
    match group with
    | Json.obj _ =>
      (pyGetArr group "dependencies").filterMap
        (extractDep ((pyGet group "targetFramework").getD (Json.str "Unknown")))
    | _ => []

/-- Python `str.strip()` (whitespace scope: ASCII, as in the configs at hand). -/
def pyStrip (s : String) : String :=
  String.mk (((s.toList.dropWhile Char.isWhitespace).reverse.dropWhile
    Char.isWhitespace).reverse)

/-- `isinstance(v, str) and v.strip()` — the per-field validity test of
`_validate_config` (src/main.py lines 80, 84, 88), applied to an optional
looked-up value. -/
def isNonEmptyStr (v : Option Json) : Bool :=
  match v with
  | some (Json.str s) => !(pyStrip s).isEmpty
  | _ => false

/-- The required config fields of `_validate_config` (src/main.py lines 68-72). -/
def required_fields : List String :=
  ["package_name", "repository_url", "package_version"]

/-- Python `config.setdefault(k, v)`: appends the pair when the key is absent. -/
def pySetdefault (c : List (String × Json)) (k : String) (v : Json) :
    List (String × Json) :=
  if (c.lookup k).isSome then c else c ++ [(k, v)]

/-- The `setdefault` block of `_validate_config` (src/main.py lines 92-94). -/
def applyOptionalDefaults (c : List (String × Json)) : List (String × Json) :=
  pySetdefault
    (pySetdefault
      (pySetdefault c "output_image" (Json.str "dependencies.png"))
      "filter_substring" (Json.str ""))
    "test_mode" (Json.bool false)

/-- `_validate_config` (src/main.py lines 66-96): reject when a required field
is missing (message joins the missing names), then when any required field is
not a non-empty-after-strip string, otherwise fill in optional defaults. -/
def validate_config (c : List (String × Json)) :
    Except AppError (List (String × Json)) :=
  let missing := required_fields.filter fun f => !((c.lookup f).isSome)
  if !missing.isEmpty then
    Except.error (AppError.configError
      ("Обязательные поля отсутствуют: " ++ String.intercalate ", " missing))
  else if !(isNonEmptyStr (c.lookup "package_name")) then
    Except.error (AppError.configError "package_name должен быть непустой строкой")
  else if !(isNonEmptyStr (c.lookup "repository_url")) then
    Except.error (AppError.configError "repository_url должен быть непустой строкой")
  else if !(isNonEmptyStr (c.lookup "package_version")) then
    Except.error (AppError.configError "package_version должен быть непустой строкой")
  else
    Except.ok (applyOptionalDefaults c)

/-- The default config written by `_load_config` when the file is missing
(src/main.py lines 37-44). -/
def default_config : List (String × Json) :=
  [("package_name", Json.str "Newtonsoft.Json"),
   ("repository_url", Json.str "https://api.nuget.org/v3/index.json"),
   ("package_version", Json.str "13.0.3"),
   ("output_image", Json.str "dependencies.png"),
   ("filter_substring", Json.str ""),
   ("test_mode", Json.bool false)]

/-- `_load_config` (src/main.py lines 32-64).  The file system is passed
explicitly: `none` means the config file does not exist, `some (Except.error e)`
means it exists but `json.load` fails with message `e`, `some (Except.ok j)`
means it parses to `j`.  The result pairs the returned config with the default
config written to disk, when one was written.  A `ConfigError` raised by
`_validate_config` is re-wrapped by the generic `except Exception` clause at
line 63; a non-dict JSON top level makes `config.items()` raise, which the same
clause wraps. -/
def load_config (file : Option (Except String Json)) :
    Except AppError (List (String × Json) × Option (List (String × Json))) :=
  match file with
  | none => Except.ok (default_config, some default_config)
  | some (Except.error e) =>
    Except.error (AppError.configError ("Ошибка парсинга JSON: " ++ e))
  | some (Except.ok j) =>
    match j with
    | Json.obj c =>
      match validate_config c with
      | Except.ok c₁ => Except.ok (c₁, none)
      | Except.error (AppError.configError m) =>
        Except.error (AppError.configError ("Ошибка загрузки конфигурации: " ++ m))
      | Except.error e => Except.error e
    | _ =>
      Except.error (AppError.configError
        "Ошибка загрузки конфигурации: объект конфигурации не является словарём")

/-- `_find_service_url` (src/main.py lines 135-146): scan
`service_index.get('resources', [])` for the first resource whose `@type`
equals the requested service type and whose `@id` is truthy, and return that
id; raise `NuGetError` when the scan finds nothing. -/
def find_service_url (service_index : Json) (service_type : String) :
    Except AppError Json :=
  match (pyGetArr service_index "resources").findSome? (fun r =>
      if jStrEq (pyGet r "@type") service_type then
        match pyGet r "@id" with
        | some u => if jTruthy u then some u else none
        | none => none
      else none) with
  | some u => Except.ok u
  | none =>
    Except.error (AppError.nugetError
      ("Сервис " ++ service_type ++ " не найден в индексе"))

/-- `_get_package_registration_url` (src/main.py lines 148-158):
`{base}{name.lower()}/{version}.json`. -/
def registrationUrl (base name version : String) : String :=
  base ++ pyToLower name ++ "/" ++ version ++ ".json"

/-- The alternative URL of `_try_alternative_registration_url`
(src/main.py line 202): `{base}{name.lower()}/index.json`. -/
def indexUrl (base name : String) : String :=
  base ++ pyToLower name ++ "/index.json"

/-- The `for item in items` scan of `_get_package_data`
(src/main.py lines 175-179): first item carrying a `catalogEntry` key. -/
def findCatalogEntry (items : List Json) : Option Json :=
  items.findSome? fun item => pyGet item "catalogEntry"

/-- The nested fallback scan of `_get_package_data`
(src/main.py lines 182-187): first sub-item of `items[0]['items']` carrying a
`catalogEntry` key. -/
def findCatalogEntryNested (first : Json) : Option Json :=
  (pyGetArr first "items").findSome? fun sub => pyGet sub "catalogEntry"

/-- `_get_package_data` (src/main.py lines 160-194): fetch the
version-specific registration URL; fail when `items` is empty or missing;
otherwise return the first `catalogEntry` found directly in the items, or in
`items[0]['items']`, or fail. -/
def get_package_data (net : String → Except String Json)
    (base name version : String) : Except AppError Json :=
  match net (registrationUrl base name version) with
  | Except.error e => Except.error (AppError.nugetError e)
  | Except.ok data =>
    match pyGetArr data "items" with
    | [] =>
      Except.error (AppError.nugetError
        ("Не найдены данные о пакете " ++ name ++ " версии " ++ version))
    | item₀ :: rest =>
      match findCatalogEntry (item₀ :: rest) with
      | some ce => Except.ok ce
      | none =>
        match findCatalogEntryNested item₀ with
        | some ce => Except.ok ce
        | none =>
          Except.error (AppError.nugetError
            ("Не удалось извлечь catalogEntry для пакета " ++ name))

/-- The exact-version scan of `_try_alternative_registration_url`
(src/main.py lines 210-216): first `catalogEntry` (default `{}`) of any
sub-item whose `version` equals the requested version. -/
def findExactVersion (items : List Json) (version : String) : Option Json :=
  items.findSome? fun item =>
    (pyGetArr item "items").findSome? fun sub =>
      let ce := (pyGet sub "catalogEntry").getD (Json.obj [])
      if jStrEq (pyGet ce "version") version then some ce else none

/-- The first-available scan of `_try_alternative_registration_url`
(src/main.py lines 219-225): `catalogEntry` (default `{}`) of the first
sub-item of the first item with a non-empty sub-item list. -/
def firstAvailable (items : List Json) : Option Json :=
  items.findSome? fun item =>
    match pyGetArr item "items" with
    | [] => none
    | sub :: _ => some ((pyGet sub "catalogEntry").getD (Json.obj []))

/-- `_try_alternative_registration_url` (src/main.py lines 196-230): fetch the
package index URL; return the exact version match, else the first available
catalog entry, else fail.  Every failure, the final `NuGetError` included, is
re-wrapped by the `except Exception` clause at lines 229-230. -/
def try_alternative_registration_url (net : String → Except String Json)
    (base name version : String) : Except AppError Json :=
  match net (indexUrl base name) with
  | Except.error e =>
    Except.error (AppError.nugetError ("Альтернативный метод также не сработал: " ++ e))
  | Except.ok data =>
    let items := pyGetArr data "items"
    match findExactVersion items version with
    | some ce => Except.ok ce
    | none =>
      match firstAvailable items with
      | some ce => Except.ok ce
      | none =>
        Except.error (AppError.nugetError
          ("Альтернативный метод также не сработал: Пакет " ++ name ++
            " не найден через альтернативный URL"))

/-- The fetch-with-fallback of `get_dependencies` (src/main.py lines 304-310):
try `_get_package_data`, and on `NuGetError` retry with
`_try_alternative_registration_url`. -/
def fetchPackageEntry (net : String → Except String Json)
    (base name version : String) : Except AppError Json :=
  match get_package_data net base name version with
  | Except.ok ce => Except.ok ce
  | Except.error _ => try_alternative_registration_url net base name version

/-- The filtering comprehension of `get_dependencies`
(src/main.py line 319), after `filter_str` has been lowered: keep the
dependencies whose lowered id contains `filterStr`; a non-string id makes
`dep['id'].lower()` raise `AttributeError`. -/
def filterByIdContains (filterStr : String) : List Dep → Except AppError (List Dep)
  | [] => Except.ok []
  | d :: ds =>
    match d.id with
    | Json.str s =>
      (filterByIdContains filterStr ds).map fun rest =>
        if strContains (pyToLower s) filterStr then d :: rest else rest
    | _ => Except.error (AppError.otherError "AttributeError: lower")

/-- The filter step of `get_dependencies` (src/main.py lines 316-321):
when `config.get('filter_substring')` is truthy, lower it and keep the
dependencies whose id contains it. -/
def applyFilter (filterSub : Option Json) (deps : List Dep) :
    Except AppError (List Dep) :=
  match filterSub with
  | some v =>
    if jTruthy v then
      match v with
      | Json.str fs => filterByIdContains (pyToLower fs) deps
      | _ => Except.error (AppError.otherError "AttributeError: lower")
    else Except.ok deps
  | none => Except.ok deps

/-- `run` (src/main.py lines 348-370), with the outcome of
`get_dependencies` passed explicitly.  The result pairs the dependency list
handed to `display_dependencies` (`none` when it is never called) with the
process exit code (`sys.exit(1)` in every `except` clause; normal return,
hence exit code 0, on success). -/
def run (depsResult : Except AppError (List Dep)) : Option (List Dep) × Nat :=
  match depsResult with
  | Except.ok ds => (some ds, 0)
  | Except.error _ => (none, 1)

/-- Concrete package entry for the two-group extraction property: a group of
three dependencies for `net6.0` and a group of one dependency with no
`targetFramework`. -/
def c6Entry : Json :=
  Json.obj [("dependencyGroups", Json.arr [
    Json.obj [("targetFramework", Json.str "net6.0"),
              ("dependencies", Json.arr [
                 Json.obj [("id", Json.str "DepA"), ("range", Json.str "[1.0.0, )")],
                 Json.obj [("id", Json.str "DepB"), ("range", Json.str "[2.0.0, )")],
                 Json.obj [("id", Json.str "DepC"), ("range", Json.str "[3.0.0, )")]])],
    Json.obj [("dependencies", Json.arr [
                 Json.obj [("id", Json.str "DepD"), ("range", Json.str "[4.0.0, )")]])]])]

/-- A dependency record that carries only `packageId` (no `id`). -/
def c2Dep : Json :=
  Json.obj [("packageId", Json.str "Microsoft.CSharp"), ("range", Json.str "[4.3.0, )")]

/-- A package entry whose single dependency group holds only `c2Dep`. -/
def c2Entry : Json :=
  Json.obj [("dependencyGroups", Json.arr [
    Json.obj [("targetFramework", Json.str ".NETStandard1.0"),
              ("dependencies", Json.arr [c2Dep])]])]

/-- A package entry with one dependency group holding the given fields as its
single dependency record. -/
def mkSingleGroupEntry (tfj : Json) (fields : List (String × Json)) : Json :=
  Json.obj [("dependencyGroups", Json.arr [
    Json.obj [("targetFramework", tfj),
              ("dependencies", Json.arr [Json.obj fields])]])]

/-- A config whose three required fields are present as non-empty strings but
whose `package_name` is whitespace-only. -/
def c3Config : List (String × Json) :=
  [("package_name", Json.str " "),
   ("repository_url", Json.str "https://api.nuget.org/v3/index.json"),
   ("package_version", Json.str "13.0.3")]

/-- Dependency list for the filter property. -/
def c7Deps : List Dep :=
  [⟨Json.str "Newtonsoft.Json", Json.str "[13.0.1, )", Json.str "net6.0"⟩,
   ⟨Json.str "System.Text", Json.str "[4.7.0, )", Json.str "net6.0"⟩,
   ⟨Json.str "Microsoft.Json.Extensions", Json.str "[6.0.0, )", Json.str "net6.0"⟩]

/-- A concrete package index document with two catalog entries. -/
def w1Index : Json :=
  Json.obj [("items", Json.arr [
    Json.obj [("items", Json.arr [
      Json.obj [("catalogEntry", Json.obj [("version", Json.str "1.0.0")])],
      Json.obj [("catalogEntry", Json.obj [("version", Json.str "2.0.0")])]])]])]

/-- A network in which the version-specific registration URL answers with an
empty `items` list and the index URL answers with `w1Index`. -/
def w1Net : String → Except String Json := fun url =>
  if url = "https://reg/foo/2.0.0.json" then
    Except.ok (Json.obj [("items", Json.arr [])])
  else if url = "https://reg/foo/index.json" then Except.ok w1Index
  else Except.error "HTTP ошибка 404"

/-- The catalog entry served by `w2Net`. -/
def w2Entry : Json :=
  Json.obj [("version", Json.str "1.2.3"), ("dependencyGroups", Json.arr [])]

/-- A network in which the version-specific registration URL answers with a
catalog entry directly. -/
def w2Net : String → Except String Json := fun url =>
  if url = "https://reg/bar/1.2.3.json" then
    Except.ok (Json.obj [("items", Json.arr [Json.obj [("catalogEntry", w2Entry)]])])
  else Except.error "HTTP ошибка 404"

/-- A network in which both the version-specific URL and the index URL answer
without any usable item. -/
def w3Net : String → Except String Json := fun url =>
  if url = "https://reg/baz/9.9.9.json" then Except.ok (Json.obj [])
  else if url = "https://reg/baz/index.json" then
    Except.ok (Json.obj [("items", Json.arr [])])
  else Except.error "HTTP ошибка 404"

/-- A concrete service index with two resources. -/
def w5Index : Json :=
  Json.obj [("resources", Json.arr [
    Json.obj [("@type", Json.str "SearchQueryService"),
              ("@id", Json.str "https://search.example/query")],
    Json.obj [("@type", Json.str "RegistrationsBaseUrl/3.6.0"),
              ("@id", Json.str "https://reg.example/")]])]

theorem jStrEq_eq_true {v : Option Json} {s : String} :
    jStrEq v s = true ↔ v = some (Json.str s) := by
  cases v with
  | none => simp [jStrEq]
  | some j => cases j <;> simp [jStrEq]

theorem isNonEmptyStr_isSome {v : Option Json} (h : isNonEmptyStr v = true) :
    v.isSome = true := by
  cases v with
  | none => simp [isNonEmptyStr] at h
  | some j => rfl

theorem findExactVersion_version {items : List Json} {v : String} {ce : Json}
    (h : findExactVersion items v = some ce) :
    pyGet ce "version" = some (Json.str v) := by
  obtain ⟨item, _, hitem⟩ := List.exists_of_findSome?_eq_some h
  obtain ⟨sub, _, hsub⟩ := List.exists_of_findSome?_eq_some hitem
  by_cases hv : jStrEq (pyGet ((pyGet sub "catalogEntry").getD (Json.obj [])) "version") v = true
  · simp only [hv, if_true] at hsub
    cases hsub
    exact jStrEq_eq_true.mp hv
  · simp only [Bool.not_eq_true] at hv
    simp [hv] at hsub

/-- C6: for a package entry whose `dependencyGroups` holds two groups of 3 and
1 well-formed dependency records (each with an id), extraction returns exactly
4 records, each tagged with its own group's `targetFramework`, defaulting to
`"Unknown"` for the group that has none. -/
theorem claim_C6_two_groups :
    extract_dependencies c6Entry =
      [⟨Json.str "DepA", Json.str "[1.0.0, )", Json.str "net6.0"⟩,
       ⟨Json.str "DepB", Json.str "[2.0.0, )", Json.str "net6.0"⟩,
       ⟨Json.str "DepC", Json.str "[3.0.0, )", Json.str "net6.0"⟩,
       ⟨Json.str "DepD", Json.str "[4.0.0, )", Json.str "Unknown"⟩] := by
  rfl

/-- C8: for every package entry whose `dependencyGroups` list is empty and
which has no top-level `dependencies` field, extraction returns the empty list
(and, being a total function, raises nothing). -/
theorem claim_C8_empty_groups (fields : List (String × Json))
    (h₁ : fields.lookup "dependencyGroups" = some (Json.arr []))
    (h₂ : fields.lookup "dependencies" = none) :
    extract_dependencies (Json.obj fields) = [] := by
  simp [extract_dependencies, pyGetArr, pyGet, h₁]

/-- C8 witness at a concrete entry. -/
theorem claim_C8_witness :
    extract_dependencies (Json.obj [("dependencyGroups", Json.arr [])]) = [] :=
  claim_C8_empty_groups [("dependencyGroups", Json.arr [])] rfl rfl

/-- C9: for every config file whose contents are not valid JSON, loading
raises `ConfigError` carrying the parse message — the raw parse exception
never escapes `_load_config`. -/
theorem claim_C9_malformed_json (e : String) :
    load_config (some (Except.error e)) =
      Except.error (AppError.configError ("Ошибка парсинга JSON: " ++ e)) := by
  rfl

/-- C9 witness at a concrete parse-error message. -/
theorem claim_C9_witness :
    load_config (some (Except.error "Expecting value: line 1 column 1 (char 0)")) =
      Except.error (AppError.configError
        "Ошибка парсинга JSON: Expecting value: line 1 column 1 (char 0)") :=
  claim_C9_malformed_json "Expecting value: line 1 column 1 (char 0)"

/-- C10: when the config file does not exist, loading does not raise: the
fixed default config (Newtonsoft.Json 13.0.3 against the nuget.org V3 index,
empty filter) is written to the path and returned. -/
theorem claim_C10_default_config :
    load_config none = Except.ok (default_config, some default_config) ∧
    default_config.lookup "package_name" = some (Json.str "Newtonsoft.Json") ∧
    default_config.lookup "package_version" = some (Json.str "13.0.3") ∧
    default_config.lookup "repository_url" =
      some (Json.str "https://api.nuget.org/v3/index.json") ∧
    default_config.lookup "filter_substring" = some (Json.str "") := by
  exact ⟨rfl, rfl, rfl, rfl, rfl⟩

/-- C4: whenever obtaining the dependency list fails — with `ConfigError`,
`NuGetError`, or any other exception — `run` prints no dependency output and
exits with code 1; the exit code is 0 only on success, where the fetched list
is displayed. -/
theorem claim_C4_run_exit :
    (∀ e : AppError, run (Except.error e) = (none, 1)) ∧
    (∀ r : Except AppError (List Dep),
      (run r).snd = 0 → ∃ ds, r = Except.ok ds ∧ run r = (some ds, 0)) := by
  constructor
  · intro e
    rfl
  · intro r h
    cases r with
    | ok ds => exact ⟨ds, rfl, rfl⟩
    | error e => simp [run] at h

/-- C4 witness: a registry error yields no output and exit code 1, and a
successful empty fetch yields exit code 0. -/
theorem claim_C4_witness :
    run (Except.error (AppError.nugetError "HTTP ошибка 404")) = (none, 1) ∧
    ∃ ds, (Except.ok [] : Except AppError (List Dep)) = Except.ok ds ∧
      run (Except.ok []) = (some ds, 0) :=
  ⟨claim_C4_run_exit.1 (AppError.nugetError "HTTP ошибка 404"),
   claim_C4_run_exit.2 (Except.ok []) rfl⟩

/-- C2 counterexample: `c2Dep` carries the name only under `packageId` (no
`id`) and a range under `range`, yet extraction of the entry holding it
returns the empty list — the dependency does not appear, contradicting the
claim that a `packageId`-only dependency is still extracted. -/
theorem claim_C2_counterexample :
    pyGet c2Dep "packageId" = some (Json.str "Microsoft.CSharp") ∧
    pyGet c2Dep "id" = none ∧
    extract_dependencies c2Entry = [] := by
  exact ⟨rfl, rfl, rfl⟩

/-- C2 amended: the extractor accepts the version range under either the
`range` key or the `version` key, but accepts the dependency name only under
the `id` key; a dependency record without an `id` key — in particular one
carrying only `packageId` — is dropped from the extracted list. -/
theorem claim_C2_amended_keys :
    (∀ (tfj : Json) (fields : List (String × Json)) (i r : String),
      fields.lookup "id" = some (Json.str i) → i ≠ "" →
      fields.lookup "range" = some (Json.str r) → r ≠ "" →
      extract_dependencies (mkSingleGroupEntry tfj fields) =
        [⟨Json.str i, Json.str r, tfj⟩]) ∧
    (∀ (tfj : Json) (fields : List (String × Json)) (i v : String),
      fields.lookup "id" = some (Json.str i) → i ≠ "" →
      fields.lookup "range" = none →
      fields.lookup "version" = some (Json.str v) →
      extract_dependencies (mkSingleGroupEntry tfj fields) =
        [⟨Json.str i, Json.str v, tfj⟩]) ∧
    (∀ (tfj : Json) (fields : List (String × Json)),
      fields.lookup "id" = none →
      extract_dependencies (mkSingleGroupEntry tfj fields) = []) := by
  refine ⟨?_, ?_, ?_⟩
  · intro tfj fields i r hid hi hr hrne
    have hi' : i.isEmpty = false := by
      rcases h : i.isEmpty with _ | _
      · rfl
      · exact absurd ((String.isEmpty_iff i).mp h) hi
    have hr' : r.isEmpty = false := by
      rcases h : r.isEmpty with _ | _
      · rfl
      · exact absurd ((String.isEmpty_iff r).mp h) hrne
    simp [extract_dependencies, mkSingleGroupEntry, pyGetArr, pyGet, extractDep,
      jTruthy, List.lookup, hid, hr, hi', hr']
  · intro tfj fields i v hid hi hr hv
    have hi' : i.isEmpty = false := by
      rcases h : i.isEmpty with _ | _
      · rfl
      · exact absurd ((String.isEmpty_iff i).mp h) hi
    simp [extract_dependencies, mkSingleGroupEntry, pyGetArr, pyGet, extractDep,
      jTruthy, List.lookup, hid, hr, hv, hi',
      show ("" : String).isEmpty = true from rfl]
  · intro tfj fields hid
    simp [extract_dependencies, mkSingleGroupEntry, pyGetArr, pyGet, extractDep,
      jTruthy, List.lookup, hid, show ("" : String).isEmpty = true from rfl]

/-- C2 witness: concrete instances of the three amended cases. -/
theorem claim_C2_witness :
    extract_dependencies (mkSingleGroupEntry (Json.str "net6.0")
        [("id", Json.str "DepA"), ("range", Json.str "[1.0, )")]) =
      [⟨Json.str "DepA", Json.str "[1.0, )", Json.str "net6.0"⟩] ∧
    extract_dependencies (mkSingleGroupEntry (Json.str "net6.0")
        [("id", Json.str "DepB"), ("version", Json.str "2.0.0")]) =
      [⟨Json.str "DepB", Json.str "2.0.0", Json.str "net6.0"⟩] ∧
    extract_dependencies (mkSingleGroupEntry (Json.str "net6.0")
        [("packageId", Json.str "DepC"), ("range", Json.str "[3.0, )")]) = [] :=
  ⟨claim_C2_amended_keys.1 (Json.str "net6.0")
      [("id", Json.str "DepA"), ("range", Json.str "[1.0, )")] "DepA" "[1.0, )"
      rfl (by decide) rfl (by decide),
   claim_C2_amended_keys.2.1 (Json.str "net6.0")
      [("id", Json.str "DepB"), ("version", Json.str "2.0.0")] "DepB" "2.0.0"
      rfl (by decide) rfl rfl,
   claim_C2_amended_keys.2.2 (Json.str "net6.0")
      [("packageId", Json.str "DepC"), ("range", Json.str "[3.0, )")] rfl⟩

/-- C3 counterexample: in `c3Config` all three required fields are present as
non-empty strings (`package_name` is the non-empty string `" "`), yet loading
raises `ConfigError` — the claim's success condition fails on whitespace-only
values, because validation strips before testing emptiness. -/
theorem claim_C3_counterexample :
    (c3Config.lookup "package_name" = some (Json.str " ") ∧ (" " : String) ≠ "" ∧
     c3Config.lookup "repository_url" =
       some (Json.str "https://api.nuget.org/v3/index.json") ∧
     c3Config.lookup "package_version" = some (Json.str "13.0.3")) ∧
    load_config (some (Except.ok (Json.obj c3Config))) =
      Except.error (AppError.configError
        "Ошибка загрузки конфигурации: package_name должен быть непустой строкой") := by
  exact ⟨⟨rfl, by decide, rfl, rfl⟩, rfl⟩

/-- C3 amended: loading an existing, syntactically valid JSON config succeeds
whenever the three required fields are present as strings that are non-empty
after stripping whitespace; if any single required field is absent (the other
two being present), loading raises `ConfigError` and its message names the
missing field. -/
theorem claim_C3_amended_validation :
    (∀ (c : List (String × Json)) (pn ru pv : String),
      c.lookup "package_name" = some (Json.str pn) → pyStrip pn ≠ "" →
      c.lookup "repository_url" = some (Json.str ru) → pyStrip ru ≠ "" →
      c.lookup "package_version" = some (Json.str pv) → pyStrip pv ≠ "" →
      load_config (some (Except.ok (Json.obj c))) =
        Except.ok (applyOptionalDefaults c, none)) ∧
    (∀ (c : List (String × Json)) (f : String),
      f ∈ required_fields → c.lookup f = none →
      (∀ g ∈ required_fields, g ≠ f → (c.lookup g).isSome = true) →
      ∃ msg, load_config (some (Except.ok (Json.obj c))) =
        Except.error (AppError.configError msg) ∧ strContains msg f = true) := by
  constructor
  · intro c pn ru pv hpn hpn' hru hru' hpv hpv'
    have e_pn : (pyStrip pn).isEmpty = false := by
      rcases h : (pyStrip pn).isEmpty with _ | _
      · rfl
      · exact absurd ((String.isEmpty_iff (pyStrip pn)).mp h) hpn'
    have h₁ : isNonEmptyStr (c.lookup "package_name") = true := by
      rw [hpn]
      simp [isNonEmptyStr, e_pn]
    have e_ru : (pyStrip ru).isEmpty = false := by
      rcases h : (pyStrip ru).isEmpty with _ | _
      · rfl
      · exact absurd ((String.isEmpty_iff (pyStrip ru)).mp h) hru'
    have h₂ : isNonEmptyStr (c.lookup "repository_url") = true := by
      rw [hru]
      simp [isNonEmptyStr, e_ru]
    have e_pv : (pyStrip pv).isEmpty = false := by
      rcases h : (pyStrip pv).isEmpty with _ | _
      · rfl
      · exact absurd ((String.isEmpty_iff (pyStrip pv)).mp h) hpv'
    have h₃ : isNonEmptyStr (c.lookup "package_version") = true := by
      rw [hpv]
      simp [isNonEmptyStr, e_pv]
    have m₁ : (c.lookup "package_name").isSome = true := isNonEmptyStr_isSome h₁
    have m₂ : (c.lookup "repository_url").isSome = true := isNonEmptyStr_isSome h₂
    have m₃ : (c.lookup "package_version").isSome = true := isNonEmptyStr_isSome h₃
    simp [load_config, validate_config, required_fields, List.filter,
      m₁, m₂, m₃, h₁, h₂, h₃]
  · intro c f hf hnone hothers
    simp only [required_fields, List.mem_cons, List.not_mem_nil, or_false] at hf
    rcases hf with rfl | rfl | rfl
    · have g₂ : (c.lookup "repository_url").isSome = true :=
        hothers "repository_url" (by simp [required_fields]) (by decide)
      have g₃ : (c.lookup "package_version").isSome = true :=
        hothers "package_version" (by simp [required_fields]) (by decide)
      refine ⟨"Ошибка загрузки конфигурации: Обязательные поля отсутствуют: package_name",
        ?_, by decide⟩
      simp [load_config, validate_config, required_fields, List.filter,
        hnone, g₂, g₃, String.intercalate]
      decide
    · have g₁ : (c.lookup "package_name").isSome = true :=
        hothers "package_name" (by simp [required_fields]) (by decide)
      have g₃ : (c.lookup "package_version").isSome = true :=
        hothers "package_version" (by simp [required_fields]) (by decide)
      refine ⟨"Ошибка загрузки конфигурации: Обязательные поля отсутствуют: repository_url",
        ?_, by decide⟩
      simp [load_config, validate_config, required_fields, List.filter,
        hnone, g₁, g₃, String.intercalate]
      decide
    · have g₁ : (c.lookup "package_name").isSome = true :=
        hothers "package_name" (by simp [required_fields]) (by decide)
      have g₂ : (c.lookup "repository_url").isSome = true :=
        hothers "repository_url" (by simp [required_fields]) (by decide)
      refine ⟨"Ошибка загрузки конфигурации: Обязательные поля отсутствуют: package_version",
        ?_, by decide⟩
      simp [load_config, validate_config, required_fields, List.filter,
        hnone, g₁, g₂, String.intercalate]
      decide

/-- C3 witness: a fully valid concrete config loads, and a config missing only
`package_name` yields a `ConfigError` naming it. -/
theorem claim_C3_witness :
    load_config (some (Except.ok (Json.obj
        [("package_name", Json.str "Newtonsoft.Json"),
         ("repository_url", Json.str "https://api.nuget.org/v3/index.json"),
         ("package_version", Json.str "13.0.3")]))) =
      Except.ok (applyOptionalDefaults
        [("package_name", Json.str "Newtonsoft.Json"),
         ("repository_url", Json.str "https://api.nuget.org/v3/index.json"),
         ("package_version", Json.str "13.0.3")], none) ∧
    ∃ msg, load_config (some (Except.ok (Json.obj
        [("repository_url", Json.str "https://api.nuget.org/v3/index.json"),
         ("package_version", Json.str "13.0.3")]))) =
      Except.error (AppError.configError msg) ∧
      strContains msg "package_name" = true := by
  constructor
  · exact claim_C3_amended_validation.1
      [("package_name", Json.str "Newtonsoft.Json"),
       ("repository_url", Json.str "https://api.nuget.org/v3/index.json"),
       ("package_version", Json.str "13.0.3")]
      "Newtonsoft.Json" "https://api.nuget.org/v3/index.json" "13.0.3"
      rfl (by decide) rfl (by decide) rfl (by decide)
  · refine claim_C3_amended_validation.2
      [("repository_url", Json.str "https://api.nuget.org/v3/index.json"),
       ("package_version", Json.str "13.0.3")]
      "package_name" (by simp [required_fields]) rfl ?_
    intro g hg hgne
    simp only [required_fields, List.mem_cons, List.not_mem_nil, or_false] at hg
    rcases hg with rfl | rfl | rfl
    · exact absurd rfl hgne
    · rfl
    · rfl

/-- C5: `_find_service_url` returns the `@id` of a resource whose `@type`
equals the requested tag whenever such a resource with a usable (truthy) id
exists, and raises `NuGetError` when no resource carries the tag. -/
theorem claim_C5_find_service_url :
    (∀ (idx : Json) (t : String) (u : Json),
      find_service_url idx t = Except.ok u →
      ∃ r ∈ pyGetArr idx "resources",
        pyGet r "@type" = some (Json.str t) ∧ pyGet r "@id" = some u ∧
        jTruthy u = true) ∧
    (∀ (idx : Json) (t : String),
      (∃ r ∈ pyGetArr idx "resources",
        pyGet r "@type" = some (Json.str t) ∧
        ∃ u, pyGet r "@id" = some u ∧ jTruthy u = true) →
      ∃ u, find_service_url idx t = Except.ok u) ∧
    (∀ (idx : Json) (t : String),
      (∀ r ∈ pyGetArr idx "resources", pyGet r "@type" ≠ some (Json.str t)) →
      find_service_url idx t =
        Except.error (AppError.nugetError ("Сервис " ++ t ++ " не найден в индексе"))) := by
  refine ⟨?_, ?_, ?_⟩
  · intro idx t u h
    rcases hfind : (pyGetArr idx "resources").findSome? (fun r =>
        if jStrEq (pyGet r "@type") t then
          match pyGet r "@id" with
          | some w => if jTruthy w then some w else none
          | none => none
        else none) with _ | u'
    · simp [find_service_url, hfind] at h
    · have hu : u' = u := by
        simp [find_service_url, hfind] at h
        exact h
      subst hu
      obtain ⟨r, hr, hfr⟩ := List.exists_of_findSome?_eq_some hfind
      by_cases ht : jStrEq (pyGet r "@type") t = true
      · rw [if_pos ht] at hfr
        rcases hid : pyGet r "@id" with _ | w
        · rw [hid] at hfr
          cases hfr
        · rw [hid] at hfr
          by_cases htr : jTruthy w = true
          · simp only [htr, if_true, Option.some.injEq] at hfr
            subst hfr
            exact ⟨r, hr, jStrEq_eq_true.mp ht, hid, htr⟩
          · simp [htr] at hfr
      · rw [if_neg ht] at hfr
        cases hfr
  · intro idx t h
    obtain ⟨r, hr, htype, u, hid, htr⟩ := h
    rcases hfind : (pyGetArr idx "resources").findSome? (fun r =>
        if jStrEq (pyGet r "@type") t then
          match pyGet r "@id" with
          | some w => if jTruthy w then some w else none
          | none => none
        else none) with _ | u'
    · have hnone := List.findSome?_eq_none_iff.mp hfind r hr
      rw [if_pos (jStrEq_eq_true.mpr htype), hid] at hnone
      simp [htr] at hnone
    · exact ⟨u', by simp [find_service_url, hfind]⟩
  · intro idx t hall
    have hfind : (pyGetArr idx "resources").findSome? (fun r =>
        if jStrEq (pyGet r "@type") t then
          match pyGet r "@id" with
          | some w => if jTruthy w then some w else none
          | none => none
        else none) = none := by
      refine List.findSome?_eq_none_iff.mpr ?_
      intro r hr
      have hf : jStrEq (pyGet r "@type") t = false := by
        rcases h : jStrEq (pyGet r "@type") t with _ | _
        · rfl
        · exact absurd (jStrEq_eq_true.mp h) (hall r hr)
      rw [if_neg (by simp [hf])]
    simp [find_service_url, hfind]

/-- C5 witness: in the concrete index `w5Index`, the registration tag is
found and an absent tag raises `NuGetError`. -/
theorem claim_C5_witness :
    (∃ u, find_service_url w5Index "RegistrationsBaseUrl/3.6.0" = Except.ok u) ∧
    find_service_url w5Index "AbsentService/1.0" =
      Except.error (AppError.nugetError
        "Сервис AbsentService/1.0 не найден в индексе") := by
  constructor
  · refine claim_C5_find_service_url.2.1 w5Index "RegistrationsBaseUrl/3.6.0"
      ⟨Json.obj [("@type", Json.str "RegistrationsBaseUrl/3.6.0"),
                 ("@id", Json.str "https://reg.example/")],
        List.Mem.tail _ (List.Mem.head _), rfl,
        ⟨Json.str "https://reg.example/", rfl, rfl⟩⟩
  · have h := claim_C5_find_service_url.2.2 w5Index "AbsentService/1.0" ?_
    · exact h
    · intro r hr
      cases hr with
      | head =>
        intro h
        simp [pyGet, List.lookup] at h
      | tail _ hr₂ =>
        cases hr₂ with
        | head =>
          intro h
          simp [pyGet, List.lookup] at h
        | tail _ hr₃ => cases hr₃

theorem filterByIdContains_all_str (fl : String) (deps : List Dep)
    (h : ∀ d ∈ deps, ∃ s, d.id = Json.str s) :
    filterByIdContains fl deps = Except.ok (deps.filter fun d =>
      match d.id with
      | Json.str s => strContains (pyToLower s) fl
      | _ => false) := by
  induction deps with
  | nil => rfl
  | cons d ds ih =>
    obtain ⟨s, hs⟩ := h d (List.mem_cons_self d ds)
    have ih₂ := ih fun d₂ hd => h d₂ (List.mem_cons_of_mem d hd)
    by_cases hc : strContains (pyToLower s) fl = true
    · simp [filterByIdContains, Except.map, hs, ih₂, List.filter_cons, hc]
    · simp [filterByIdContains, Except.map, hs, ih₂, List.filter_cons, hc]

/-- C7: with a non-empty filter substring configured, the resulting list
contains exactly the dependencies whose id contains the substring
case-insensitively; in particular filter `"json"` over the ids
`Newtonsoft.Json`, `System.Text`, `Microsoft.Json.Extensions` keeps exactly
the first and third. -/
theorem claim_C7_filter :
    (∀ (fs : String) (deps : List Dep),
      fs ≠ "" →
      (∀ d ∈ deps, ∃ s, d.id = Json.str s) →
      applyFilter (some (Json.str fs)) deps =
        Except.ok (deps.filter fun d =>
          match d.id with
          | Json.str s => strContains (pyToLower s) (pyToLower fs)
          | _ => false)) ∧
    applyFilter (some (Json.str "json")) c7Deps =
      Except.ok
        [⟨Json.str "Newtonsoft.Json", Json.str "[13.0.1, )", Json.str "net6.0"⟩,
         ⟨Json.str "Microsoft.Json.Extensions", Json.str "[6.0.0, )",
           Json.str "net6.0"⟩] := by
  constructor
  · intro fs deps hfs hids
    have he : fs.isEmpty = false := by
      rcases h : fs.isEmpty with _ | _
      · rfl
      · exact absurd ((String.isEmpty_iff fs).mp h) hfs
    simp [applyFilter, jTruthy, he, filterByIdContains_all_str (pyToLower fs) deps hids]
  · rfl

/-- C7 witness: the general filter statement applied at the concrete list. -/
theorem claim_C7_witness :
    applyFilter (some (Json.str "json")) c7Deps =
      Except.ok (c7Deps.filter fun d =>
        match d.id with
        | Json.str s => strContains (pyToLower s) (pyToLower "json")
        | _ => false) := by
  refine claim_C7_filter.1 "json" c7Deps (by decide) ?_
  intro d hd
  cases hd with
  | head => exact ⟨"Newtonsoft.Json", rfl⟩
  | tail _ hd₂ =>
    cases hd₂ with
    | head => exact ⟨"System.Text", rfl⟩
    | tail _ hd₃ =>
      cases hd₃ with
      | head => exact ⟨"Microsoft.Json.Extensions", rfl⟩
      | tail _ hd₄ => cases hd₄

/-- C1: the package entry is fetched by first trying the version-specific URL
`{base}{lowercased name}/{version}.json`; when that primary lookup yields an
empty or missing `items` list, the fetch falls back to the index URL
`{base}{lowercased name}/index.json`, from which it returns the catalog entry
whose `version` equals the requested version exactly, or, when no exact match
exists, the first available catalog entry; when the index has no entries
either, it fails with `NuGetError`. -/
theorem claim_C1_fetch_fallback :
    (∀ (net : String → Except String Json) (base name version : String) (ce : Json),
      get_package_data net base name version = Except.ok ce →
      fetchPackageEntry net base name version = Except.ok ce) ∧
    (∀ (net : String → Except String Json) (base name version : String)
        (pdata : Json),
      net (base ++ pyToLower name ++ "/" ++ version ++ ".json") = Except.ok pdata →
      pyGetArr pdata "items" = [] →
      fetchPackageEntry net base name version =
        try_alternative_registration_url net base name version) ∧
    (∀ (net : String → Except String Json) (base name version : String)
        (idx ce : Json),
      net (base ++ pyToLower name ++ "/index.json") = Except.ok idx →
      findExactVersion (pyGetArr idx "items") version = some ce →
      try_alternative_registration_url net base name version = Except.ok ce ∧
      pyGet ce "version" = some (Json.str version)) ∧
    (∀ (net : String → Except String Json) (base name version : String)
        (idx ce : Json),
      net (base ++ pyToLower name ++ "/index.json") = Except.ok idx →
      findExactVersion (pyGetArr idx "items") version = none →
      firstAvailable (pyGetArr idx "items") = some ce →
      try_alternative_registration_url net base name version = Except.ok ce) ∧
    (∀ (net : String → Except String Json) (base name version : String)
        (idx : Json),
      net (base ++ pyToLower name ++ "/index.json") = Except.ok idx →
      pyGetArr idx "items" = [] →
      ∃ msg, try_alternative_registration_url net base name version =
        Except.error (AppError.nugetError msg)) := by
  refine ⟨?_, ?_, ?_, ?_, ?_⟩
  · intro net base name version ce h
    simp [fetchPackageEntry, h]
  · intro net base name version pdata hnet hitems
    have hg : get_package_data net base name version =
        Except.error (AppError.nugetError
          ("Не найдены данные о пакете " ++ name ++ " версии " ++ version)) := by
      simp [get_package_data, registrationUrl, hnet, hitems]
    simp [fetchPackageEntry, hg]
  · intro net base name version idx ce hnet hexact
    constructor
    · simp [try_alternative_registration_url, indexUrl, hnet, hexact]
    · exact findExactVersion_version hexact
  · intro net base name version idx ce hnet hexact hfirst
    simp [try_alternative_registration_url, indexUrl, hnet, hexact, hfirst]
  · intro net base name version idx hnet hitems
    exact ⟨"Альтернативный метод также не сработал: Пакет " ++ name ++
      " не найден через альтернативный URL",
      by simp [try_alternative_registration_url, indexUrl, hnet, hitems,
        findExactVersion, firstAvailable]⟩

/-- C1 witness: concrete networks exercising the primary success, the
empty-primary fallback, the exact-version match, the first-available fallback
and the empty-index failure. -/
theorem claim_C1_witness :
    fetchPackageEntry w2Net "https://reg/" "Bar" "1.2.3" = Except.ok w2Entry ∧
    fetchPackageEntry w1Net "https://reg/" "Foo" "2.0.0" =
      try_alternative_registration_url w1Net "https://reg/" "Foo" "2.0.0" ∧
    try_alternative_registration_url w1Net "https://reg/" "Foo" "2.0.0" =
      Except.ok (Json.obj [("version", Json.str "2.0.0")]) ∧
    try_alternative_registration_url w1Net "https://reg/" "Foo" "3.0.0" =
      Except.ok (Json.obj [("version", Json.str "1.0.0")]) ∧
    ∃ msg, try_alternative_registration_url w3Net "https://reg/" "Baz" "9.9.9" =
      Except.error (AppError.nugetError msg) := by
  refine ⟨?_, ?_, ?_, ?_, ?_⟩
  · exact claim_C1_fetch_fallback.1 w2Net "https://reg/" "Bar" "1.2.3" w2Entry
      (by rfl)
  · exact claim_C1_fetch_fallback.2.1 w1Net "https://reg/" "Foo" "2.0.0"
      (Json.obj [("items", Json.arr [])]) (by rfl) (by rfl)
  · exact (claim_C1_fetch_fallback.2.2.1 w1Net "https://reg/" "Foo" "2.0.0"
      w1Index (Json.obj [("version", Json.str "2.0.0")]) (by rfl) (by rfl)).1
  · exact claim_C1_fetch_fallback.2.2.2.1 w1Net "https://reg/" "Foo" "3.0.0"
      w1Index (Json.obj [("version", Json.str "1.0.0")]) (by rfl) (by rfl) (by rfl)
  · exact claim_C1_fetch_fallback.2.2.2.2 w3Net "https://reg/" "Baz" "9.9.9"
      (Json.obj [("items", Json.arr [])]) (by rfl) (by rfl)
